import Mathlib

/-!
Shallow embedding of the page-processing pipeline of the yt-dtox
Chrome content script (src/chrome/content.js), together with theorems
settling the frozen claims about it.

Elements of the live DOM are identified by natural numbers.  WeakSets of
elements are embedded as lists of identifiers (membership is all the code
ever queries).  Inline style writes are embedded as updates to per-element
string fields.  Console logging is embedded as an append-only list of
messages, so that "is a diagnostic emitted" is observable.
-/

/-! ## URL classification (content.js lines 39-42, 115-117)

`URL_PATTERNS.SHORTS_PAGE` is the regex `/\/shorts\//`, i.e. a plain
substring test for "/shorts/". -/

/-- Substring occurrence test on character lists: `hasSub pat s` is true
iff `pat` occurs contiguously in `s` (the semantics of testing the
literal-only regex `/\/shorts\//` against a string). -/
def hasSub (pat : List Char) : List Char → Bool
  | [] => pat.isEmpty
  | c :: rest => pat.isPrefixOf (c :: rest) || hasSub pat rest

/-- `isShortsPage` (content.js line 115): the URL matches
`URL_PATTERNS.SHORTS_PAGE`, i.e. contains "/shorts/". -/
def isShortsPage (url : String) : Bool :=
  hasSub "/shorts/".data url.data

/-! ## Selector queries (content.js lines 17-27, 106-113, 146-156)

A document is embedded by its `querySelectorAll` behaviour: a function
from selector strings to `Option (List Nat)` — `none` models the
SyntaxError thrown on an invalid selector, `some l` the matched elements
in document order.  Per the DOM standard the empty selector string is
invalid (parsing it fails and a SyntaxError is thrown), which is recorded
as the field `empty_invalid`. -/

structure DocQ where
  query : String → Option (List Nat)
  empty_invalid : query "" = none

/-- The fixed selector list `YOUTUBE_SELECTORS.SHORTS_CONTAINERS`
(content.js lines 18-27). -/
def SHORTS_CONTAINERS : List String :=
  ["[is-shorts]",
   "ytd-shorts",
   "ytd-reel-video-renderer",
   "ytd-reel-shelf-renderer",
   "[aria-label*=\"Shorts\"]",
   "[aria-label*=\"shorts\"]",
   "ytd-rich-shelf-renderer[is-shorts]",
   "ytd-rich-item-renderer:has([aria-label*=\"Shorts\"])"]

/-- `safeQuerySelectorAll` (content.js lines 106-113): try the selector;
on failure the catch block evaluates `document.querySelectorAll('')`,
whose result (itself a possible throw, modelled by `Option`) is what the
function yields. -/
def safeQuerySelectorAll (d : DocQ) (sel : String) : Option (List Nat) :=
  match d.query sel with
  | some l => some l
  | none => d.query ""

/-- The selector loop of `findShortsElements` (content.js lines 149-152):
concatenate the per-selector results in list order; an uncaught throw from
`safeQuerySelectorAll` aborts the whole loop (exception propagation,
modelled by `none`). -/
def collectShorts (d : DocQ) : List String → Option (List Nat)
  | [] => some []
  | sel :: rest =>
    match safeQuerySelectorAll d sel with
    | some l => (collectShorts d rest).map (fun r => l ++ r)
    | none => none

/-- Deduplication by identity with first-seen order preserved: the
semantics of `[...new Set(allShorts)]` (content.js line 155) — a JS `Set`
keeps insertion order and ignores re-insertions.  `seen` is the set
content accumulated so far. -/
def jsSetDedup (seen : List Nat) : List Nat → List Nat
  | [] => []
  | x :: xs =>
    if seen.contains x then jsSetDedup seen xs
    else x :: jsSetDedup (x :: seen) xs

/-- `findShortsElements` (content.js lines 146-156). -/
def findShortsElements (d : DocQ) : Option (List Nat) :=
  (collectShorts d SHORTS_CONTAINERS).map (jsSetDedup [])

/-- A document on which every nonempty selector parses and matches
nothing; the empty selector is invalid, as the DOM standard requires. -/
def emptyDoc : DocQ where
  query := fun s => if s = "" then none else some []
  empty_invalid := by decide

/-- A document as seen by a browser whose selector engine rejects the
`:has()` pseudo-class (content.js line 26): that one selector of the
fixed list fails to parse, every other selector parses and matches
nothing. -/
def noHasDoc : DocQ where
  query := fun s =>
    if s = "" then none
    else if s = "ytd-rich-item-renderer:has([aria-label*=\"Shorts\"])" then none
    else some []
  empty_invalid := by decide

/-! ## ShortsBlocker state (content.js lines 136-259) -/

/-- What the pipeline reads and writes on one tracked DOM element:
whether `parentNode` is non-null, and the inline `style.display` value. -/
structure ElemInfo where
  hasParent : Bool
  display : String
deriving DecidableEq

/-- The mutable state touched by `ShortsBlocker`: the two WeakSets
(`hiddenShorts`, `sessionVisible`), the document's tracked elements, the
overlays inserted so far (element id ↦ overlay inline display value), and
the console log. -/
structure BlockerState where
  hiddenShorts : List Nat
  sessionVisible : List Nat
  elems : List (Nat × ElemInfo)
  overlays : List (Nat × String)
  log : List String
deriving DecidableEq

/-- Freshly constructed `ShortsBlocker` (content.js lines 137-140) over a
given document: both WeakSets empty, no overlays, nothing logged. -/
def initState (elems : List (Nat × ElemInfo)) : BlockerState :=
  { hiddenShorts := [], sessionVisible := [], elems := elems,
    overlays := [], log := [] }

/-- Write `style.display := v` on element `e`. -/
def setDisplay (e : Nat) (v : String) (l : List (Nat × ElemInfo)) :
    List (Nat × ElemInfo) :=
  l.map (fun p => if p.1 = e then (p.1, { p.2 with display := v }) else p)

/-- Write `overlay.style.display := v` on the overlay of element `e`. -/
def setOverlayDisplay (e : Nat) (v : String) (l : List (Nat × String)) :
    List (Nat × String) :=
  l.map (fun p => if p.1 = e then (p.1, v) else p)

/-- `ShortsBlocker.hideShort` (content.js lines 211-235): skip if the
element is in `hiddenShorts` or in `sessionVisible`; otherwise, if its
`parentNode` exists, insert a fresh overlay after it (inline display
unset), set the element's display to "none" and add it to `hiddenShorts`.
With `parentNode` null the `if` body is skipped and nothing at all
happens (in particular nothing is logged: the catch block only fires on a
thrown exception, and no statement on this path throws). An element
absent from the document behaves as one without a parent. -/
def hideShort (e : Nat) (s : BlockerState) : BlockerState :=
  if s.hiddenShorts.contains e then s
  else if s.sessionVisible.contains e then s
  else
    match s.elems.lookup e with
    | none => s
    | some info =>
      if info.hasParent then
        { s with
          overlays := s.overlays ++ [(e, "")],
          elems := setDisplay e "none" s.elems,
          hiddenShorts := e :: s.hiddenShorts }
      else s

/-- `ShortsBlocker.toggleShortVisibility` (content.js lines 193-205).
Note that neither branch touches `hiddenShorts`. -/
def toggleShortVisibility (e : Nat) (s : BlockerState) : BlockerState :=
  if s.sessionVisible.contains e then
    { s with
      elems := setDisplay e "none" s.elems,
      overlays := setOverlayDisplay e "flex" s.overlays,
      sessionVisible := s.sessionVisible.erase e }
  else
    { s with
      elems := setDisplay e "" s.elems,
      overlays := setOverlayDisplay e "none" s.overlays,
      sessionVisible := e :: s.sessionVisible }

/-- `ShortsBlocker.resetSession` (content.js lines 256-258): replace
`sessionVisible` with a fresh WeakSet.  `hiddenShorts` is not touched. -/
def resetSession (s : BlockerState) : BlockerState :=
  { s with sessionVisible := [] }

/-- The suppression loop of `processShorts` (content.js lines 248-250):
`hideShort` applied to each found element in order. -/
def processList (l : List Nat) (s : BlockerState) : BlockerState :=
  l.foldl (fun st e => hideShort e st) s

/-- `ShortsBlocker.processShorts` (content.js lines 240-251): return
immediately on a shorts page; otherwise find and hide, propagating a
throw from `findShortsElements` (modelled by `none`). -/
def processShorts (url : String) (d : DocQ) (s : BlockerState) :
    Option BlockerState :=
  if isShortsPage url then some s
  else (findShortsElements d).map (fun l => processList l s)

/-! ## Controller navigation handling (content.js lines 677-806) -/

/-- The controller state touched by `handleNavigation`: the tracked
current URL, the `ShortsBlocker` state, the `NavigationButtonRemover`
seen-set, and whether the saved-tabs container is in the DOM. -/
structure CtrlState where
  currentUrl : String
  blocker : BlockerState
  removedButtons : List Nat
  savedTabsPresent : Bool
deriving DecidableEq

/-- `YouTubeDetoxController.handleNavigation` (content.js lines 790-806):
if the URL changed, record it, call `shortsBlocker.resetSession()`
(which clears only `sessionVisible`), reset the navigation-button
remover's seen-set, and remove the saved-tabs UI; otherwise do nothing.
(The delayed `processPage()` call it also schedules is a separate later
event.) -/
def handleNavigation (newUrl : String) (c : CtrlState) : CtrlState :=
  if newUrl ≠ c.currentUrl then
    { currentUrl := newUrl,
      blocker := resetSession c.blocker,
      removedButtons := [],
      savedTabsPresent := false }
  else c

/-! ## ScrollPreventer (content.js lines 316-400) -/

/-- The state `ScrollPreventer.enable`/`disable` read and write: the
`isActive` flag, the captured `originalOverflow`, the live
`document.body.style.overflow`, and whether each of the four
wheel/keydown interceptor registrations is attached (`addEventListener`
with an identical listener/capture pair is a no-op when already
attached, so a Bool per registration is exact). -/
structure ScrollState where
  isActive : Bool
  originalOverflow : String
  bodyOverflow : String
  docWheel : Bool
  docKey : Bool
  winWheel : Bool
  winKey : Bool
deriving DecidableEq

namespace ScrollPreventer

/-- `ScrollPreventer.enable` (content.js lines 354-370): return if
already active; else capture the body overflow, force it to "hidden",
attach the four interceptors, set `isActive`. -/
def enable (s : ScrollState) : ScrollState :=
  if s.isActive then s
  else
    { isActive := true,
      originalOverflow := s.bodyOverflow,
      bodyOverflow := "hidden",
      docWheel := true, docKey := true, winWheel := true, winKey := true }

/-- `ScrollPreventer.disable` (content.js lines 375-388): return if not
active; else restore the captured overflow value, detach the four
interceptors, clear `isActive`. -/
def disable (s : ScrollState) : ScrollState :=
  if s.isActive then
    { isActive := false,
      originalOverflow := s.originalOverflow,
      bodyOverflow := s.originalOverflow,
      docWheel := false, docKey := false, winWheel := false, winKey := false }
  else s

end ScrollPreventer

/-! ## Mutation filtering (content.js lines 726-761) -/

/-- The data of one DOM node that the mutation filter inspects: its id,
its class list, and its attribute names. -/
structure NodeData where
  idAttr : String
  classes : List String
  attrs : List String
deriving DecidableEq

/-- A mutation target together with its ancestor chain (nearest first),
which is what `Element.closest` walks. -/
structure DomTarget where
  self : NodeData
  ancestors : List NodeData
deriving DecidableEq

/-- `target.closest('#i')`: does the element or an ancestor have id `i`. -/
def closestById (t : DomTarget) (i : String) : Bool :=
  (t.self :: t.ancestors).any (fun n => n.idAttr = i)

/-- `target.closest('.c')`: does the element or an ancestor carry class
`c`. -/
def closestByClass (t : DomTarget) (c : String) : Bool :=
  (t.self :: t.ancestors).any (fun n => n.classes.contains c)

/-- `n.hasAttribute('data-yt-detox')`. -/
def hasMarkAttr (n : NodeData) : Bool :=
  n.attrs.contains "data-yt-detox"

/-- A node of `mutation.addedNodes`: its node type (element or not) and,
for element nodes, its inspected data. -/
structure AddedNode where
  isElementNode : Bool
  data : NodeData
deriving DecidableEq

/-- One `MutationRecord` as the filter sees it. -/
structure MutationRec where
  target : DomTarget
  addedNodes : List AddedNode
deriving DecidableEq

/-- The filter predicate of `setupMutationObserver` (content.js lines
730-752): drop a mutation whose target is inside the saved-tabs
container or an overlay or itself carries `data-yt-detox`; drop a
mutation any of whose added element nodes is the saved-tabs container,
an overlay, or carries `data-yt-detox`; keep the rest. -/
def isRelevantMutation (m : MutationRec) : Bool :=
  if closestById m.target "yt-detox-saved-tabs" ||
     closestByClass m.target "yt-detox-overlay" ||
     hasMarkAttr m.target.self then
    false
  else if m.addedNodes.any (fun n =>
      n.isElementNode &&
      (n.data.idAttr = "yt-detox-saved-tabs" ||
       n.data.classes.contains "yt-detox-overlay" ||
       hasMarkAttr n.data)) then
    false
  else true

/-- The observer callback (content.js lines 726-758): with the extension
disabled, nothing; otherwise `debouncedProcess()` is invoked iff at
least one mutation of the batch survives the filter.  The result is
"was a re-run of processPage scheduled". -/
def observerCallback (enabled : Bool) (muts : List MutationRec) : Bool :=
  if !enabled then false
  else decide ((muts.filter isRelevantMutation).length > 0)

/-! ## Debounce (content.js lines 89-95)

`debounce(func, delay)` keeps a single `timeoutId`; each call clears the
pending timer (a no-op if it already fired) and arms a fresh one `delay`
later.  For calls at nondecreasing instants, the timer armed by a call at
time `t` fires iff the next call arrives no earlier than `t + delay` (or
there is no next call).  `debounceRun` threads that single pending-timer
slot (`Option` deadline — at most one pending timer exists by
construction) over the call instants and counts firings of `func`. -/

def debounceRun (delay : Nat) : List Nat → Option Nat → Nat
  | [], none => 0
  | [], some _ => 1
  | t :: ts, none => debounceRun delay ts (some (t + delay))
  | t :: ts, some d =>
    (if d ≤ t then 1 else 0) + debounceRun delay ts (some (t + delay))

/-- Number of executions of the debounced function when the wrapper is
called at the given nondecreasing instants. -/
def debounceFires (delay : Nat) (times : List Nat) : Nat :=
  debounceRun delay times none

/-! ## processPage control flow (content.js lines 811-839)

`processPage` runs four stages in order — `scrollPreventer.update()`,
`navigationButtonRemover.removeNavigationButtons()`,
`shortsBlocker.processShorts()`, and the homepage saved-tabs refresh —
inside a single `try`; the `catch` logs the error, the `finally` clears
`isProcessing`.  The claims of interest are purely about this control
flow, so the four stage calls are abstracted as state transformers with
JS exception semantics: a stage either returns the updated state or
throws, carrying the partially-updated state at the throw point. -/

/-- A pipeline stage with JS exception semantics over state `σ`. -/
def Stage (σ : Type) : Type := σ → Except (String × σ) σ

/-- The body of the `try` block: the four stage calls in source order;
a throw aborts the remaining stages. -/
def tryStages {σ : Type} (s1 s2 s3 s4 : Stage σ) (st : σ) :
    Except (String × σ) σ := do
  let st1 ← s1 st
  let st2 ← s2 st1
  let st3 ← s3 st2
  s4 st3

/-- Result of one `processPage` invocation: final state, console-error
log of this invocation, and the `isProcessing` flag afterwards. -/
structure PPResult (σ : Type) where
  state : σ
  errLog : List String
  gate : Bool
deriving DecidableEq

/-- `YouTubeDetoxController.processPage` (content.js lines 811-839):
return at once when disabled or when a pass is already running; else run
the four stages under one try/catch (the catch logs), clearing the gate
in `finally`. -/
def processPage {σ : Type} (enabled gate : Bool) (s1 s2 s3 s4 : Stage σ)
    (st : σ) : PPResult σ :=
  if !enabled || gate then ⟨st, [], gate⟩
  else
    match tryStages s1 s2 s3 s4 st with
    | Except.ok st4 => ⟨st4, [], false⟩
    | Except.error (msg, stE) => ⟨stE, [msg], false⟩

/-! ## Reachable ShortsBlocker states

The operations the running system ever applies to a `ShortsBlocker`:
`hideShort` on any element (from `processShorts`), `toggleShortVisibility`
on an element whose overlay exists (the toggle handler is only reachable
through the click listener installed on that element's overlay button,
content.js lines 178-183), and `resetSession` (from `handleNavigation`). -/

/-- The element ids currently owning an overlay. -/
def overlayKeys (s : BlockerState) : List Nat :=
  s.overlays.map Prod.fst

inductive BlockerStep : BlockerState → BlockerState → Prop where
  | hide (e : Nat) (s : BlockerState) : BlockerStep s (hideShort e s)
  | toggle (e : Nat) (s : BlockerState) (h : e ∈ overlayKeys s) :
      BlockerStep s (toggleShortVisibility e s)
  | reset (s : BlockerState) : BlockerStep s (resetSession s)

inductive ReachableBlocker : BlockerState → Prop where
  | init (l : List (Nat × ElemInfo)) : ReachableBlocker (initState l)
  | step {s s' : BlockerState} : ReachableBlocker s → BlockerStep s s' →
      ReachableBlocker s'

/-- The invariant carried through the induction: every overlay owner and
every session-revealed element is in `hiddenShorts`. -/
def BlockerInv (s : BlockerState) : Prop :=
  (∀ e, e ∈ overlayKeys s → e ∈ s.hiddenShorts) ∧
  (∀ e, e ∈ s.sessionVisible → e ∈ s.hiddenShorts)

/-! ## Concrete example states used by witnesses and counterexamples -/

/-- A one-element document: element 0 has a parent and no inline display. -/
def elemDoc : List (Nat × ElemInfo) := [(0, ⟨true, ""⟩)]

/-- Element 0 after its first suppression. -/
def cexS1 : BlockerState := hideShort 0 (initState elemDoc)

/-- Element 0 after suppression and one user toggle (now revealed). -/
def cexS2 : BlockerState := toggleShortVisibility 0 cexS1

/-- Controller sitting on the homepage with element 0 revealed. -/
def cexCtrl : CtrlState := ⟨"https://www.youtube.com/", cexS2, [], false⟩

/-- The controller after an SPA navigation to a watch page. -/
def cexCtrl2 : CtrlState :=
  handleNavigation "https://www.youtube.com/watch?v=abc" cexCtrl

/-- A controller with one already-suppressed element, for the C2 witness. -/
def wCtrl : CtrlState := ⟨"a", ⟨[5], [], [], [], []⟩, [], false⟩

/-- A blocker state whose element 7 has no parent node. -/
def exNoParent : BlockerState := ⟨[], [], [(7, ⟨false, ""⟩)], [], []⟩

/-- A batch of two fully self-attributed mutations: one whose target
carries `data-yt-detox` and whose only added element node is marked, one
whose target sits inside the saved-tabs container. -/
def wMuts : List MutationRec :=
  [⟨⟨⟨"", [], ["data-yt-detox"]⟩, []⟩,
    [⟨true, ⟨"", ["yt-detox-overlay"], ["data-yt-detox"]⟩⟩]⟩,
   ⟨⟨⟨"x", [], []⟩, [⟨"yt-detox-saved-tabs", [], []⟩]⟩, []⟩]

/-- A qualifying batch: one mutation with an unmarked target and no
added nodes, which survives the filter. -/
def wBatch : List MutationRec := [⟨⟨⟨"", [], []⟩, []⟩, []⟩]

/-! ## Helper lemmas -/

theorem map_fst_setOverlayDisplay (e : Nat) (v : String)
    (l : List (Nat × String)) :
    (setOverlayDisplay e v l).map Prod.fst = l.map Prod.fst := by
  simp only [setOverlayDisplay, List.map_map]
  congr 1
  funext p
  by_cases h : p.1 = e <;> simp [h]

theorem hideShort_of_hidden {e : Nat} {s : BlockerState}
    (h : s.hiddenShorts.contains e = true) : hideShort e s = s := by
  have h' : e ∈ s.hiddenShorts := by simpa using h
  simp [hideShort, h']

theorem hideShort_of_visible {e : Nat} {s : BlockerState}
    (h : s.sessionVisible.contains e = true) : hideShort e s = s := by
  have h' : e ∈ s.sessionVisible := by simpa using h
  by_cases h1 : e ∈ s.hiddenShorts <;> simp [hideShort, h1, h']

theorem blockerInv_init (l : List (Nat × ElemInfo)) :
    BlockerInv (initState l) := by
  constructor <;> intro e he <;> simp [initState, overlayKeys] at he

theorem blockerInv_hideShort {s : BlockerState} (e : Nat)
    (h : BlockerInv s) : BlockerInv (hideShort e s) := by
  unfold hideShort
  split
  · exact h
  · split
    · exact h
    · split
      · exact h
      · split
        · refine ⟨?_, ?_⟩
          · intro x hx
            simp only [overlayKeys, List.map_append, List.mem_append,
              List.map_cons, List.map_nil, List.mem_singleton] at hx
            rcases hx with hx | hx
            · exact List.mem_cons_of_mem _ (h.1 x hx)
            · simp [hx]
          · intro x hx
            exact List.mem_cons_of_mem _ (h.2 x hx)
        · exact h

theorem blockerInv_toggle {s : BlockerState} (e : Nat)
    (hov : e ∈ overlayKeys s) (h : BlockerInv s) :
    BlockerInv (toggleShortVisibility e s) := by
  unfold toggleShortVisibility
  split
  · refine ⟨?_, ?_⟩
    · intro x hx
      simp only [overlayKeys, map_fst_setOverlayDisplay] at hx
      exact h.1 x hx
    · intro x hx
      exact h.2 x (List.mem_of_mem_erase hx)
  · refine ⟨?_, ?_⟩
    · intro x hx
      simp only [overlayKeys, map_fst_setOverlayDisplay] at hx
      exact h.1 x hx
    · intro x hx
      rcases List.mem_cons.mp hx with hx | hx
      · subst hx
        exact h.1 x hov
      · exact h.2 x hx

theorem blockerInv_reset {s : BlockerState} (h : BlockerInv s) :
    BlockerInv (resetSession s) := by
  refine ⟨fun x hx => h.1 x hx, ?_⟩
  intro x hx
  simp [resetSession] at hx

theorem blockerInv_reachable {s : BlockerState} (h : ReachableBlocker s) :
    BlockerInv s := by
  induction h with
  | init l => exact blockerInv_init l
  | step _ hstep ih =>
    cases hstep with
    | hide e s => exact blockerInv_hideShort e ih
    | toggle e s hov => exact blockerInv_toggle e hov ih
    | reset s => exact blockerInv_reset ih

theorem debounceRun_chain (delay : Nat) :
    ∀ (ts : List Nat) (t : Nat),
      List.Chain' (fun a b => b < a + delay) (t :: ts) →
      debounceRun delay ts (some (t + delay)) = 1 := by
  intro ts
  induction ts with
  | nil => intro t _; rfl
  | cons t2 ts ih =>
    intro t hch
    have h1 : t2 < t + delay := (List.chain'_cons.mp hch).1
    have h2 := (List.chain'_cons.mp hch).2
    simp only [debounceRun]
    rw [if_neg (by omega)]
    simpa using ih t2 h2

/-! ## The claims -/

/-- Claim C1, counterexample.  The claim asserts that the toggle moving
an element from SUPPRESSED to REVEALED removes it from `hiddenShorts`
when adding it to `sessionVisible`, so that no element is ever in both
sets.  In fact `toggleShortVisibility` never touches `hiddenShorts`:
after suppressing element 0 and toggling it to revealed, the element is
in both sets simultaneously. -/
theorem toggle_leaves_both_sets :
    0 ∈ cexS2.hiddenShorts ∧ 0 ∈ cexS2.sessionVisible := by decide

/-- Claim C1, amended.  Membership in `hiddenShorts` and
`sessionVisible` is not mutually exclusive: a revealed element stays in
`hiddenShorts`.  The invariant that does hold in every reachable
`ShortsBlocker` state is containment: `sessionVisible ⊆ hiddenShorts`. -/
theorem revealed_subset_suppressed {s : BlockerState}
    (h : ReachableBlocker s) :
    ∀ e, e ∈ s.sessionVisible → e ∈ s.hiddenShorts :=
  (blockerInv_reachable h).2

theorem revealed_subset_suppressed_witness :
    0 ∈ cexS2.sessionVisible ∧ 0 ∈ cexS2.hiddenShorts :=
  have hr : ReachableBlocker cexS2 :=
    ReachableBlocker.step
      (ReachableBlocker.step (ReachableBlocker.init elemDoc)
        (BlockerStep.hide 0 _))
      (BlockerStep.toggle 0 _ (by decide))
  ⟨by decide, revealed_subset_suppressed hr 0 (by decide)⟩

/-- Claim C2, counterexample.  The claim asserts that the navigation
reset clears both tracking sets, after which a suppress on a previously
REVEALED element succeeds as if fresh (overlay inserted, element hidden,
marked).  In fact `resetSession` clears only `sessionVisible`: after a
changed-URL `handleNavigation`, element 0 is still in `hiddenShorts`,
and the subsequent `hideShort` is a complete no-op — still exactly one
overlay, and the element's inline display is still "" (shown), not
"none". -/
theorem reset_keeps_hiddenShorts :
    0 ∈ cexCtrl2.blocker.hiddenShorts ∧
    hideShort 0 cexCtrl2.blocker = cexCtrl2.blocker ∧
    (hideShort 0 cexCtrl2.blocker).overlays.length = 1 ∧
    (hideShort 0 cexCtrl2.blocker).elems.lookup 0 = some ⟨true, ""⟩ := by
  decide

/-- Claim C2, amended.  After `handleNavigation` observes a changed URL,
the reset clears only the session-revealed set; `hiddenShorts` is left
unchanged, so a previously processed element does not return to UNSEEN:
a subsequent `hideShort` on it is a no-op rather than a fresh
suppression. -/
theorem handleNavigation_reset_partial (u : String) (c : CtrlState)
    (h : u ≠ c.currentUrl) :
    (handleNavigation u c).blocker.sessionVisible = [] ∧
    (handleNavigation u c).blocker.hiddenShorts = c.blocker.hiddenShorts ∧
    ∀ e, c.blocker.hiddenShorts.contains e = true →
      hideShort e (handleNavigation u c).blocker =
        (handleNavigation u c).blocker := by
  simp only [handleNavigation, if_pos h]
  refine ⟨rfl, rfl, ?_⟩
  intro e he
  exact hideShort_of_hidden he

theorem handleNavigation_reset_partial_witness :
    ("b" ≠ wCtrl.currentUrl) ∧
    ((handleNavigation "b" wCtrl).blocker.sessionVisible = [] ∧
     (handleNavigation "b" wCtrl).blocker.hiddenShorts =
       wCtrl.blocker.hiddenShorts ∧
     ∀ e, wCtrl.blocker.hiddenShorts.contains e = true →
       hideShort e (handleNavigation "b" wCtrl).blocker =
         (handleNavigation "b" wCtrl).blocker) :=
  ⟨by decide, handleNavigation_reset_partial "b" wCtrl (by decide)⟩

/-- Claim C3, counterexample.  The claim asserts per-stage failure
isolation inside one `processPage` run.  In fact the four stages run
under a single try/catch: with stage 1 throwing, the final state carries
only stage 1's partial effect — stages 2, 3 and 4 of the same run never
execute. -/
theorem stage_failure_stops_pass :
    processPage true false
      (fun st => Except.error ("E1", st ++ ["s1p"]))
      (fun st => Except.ok (st ++ ["s2p"]))
      (fun st => Except.ok (st ++ ["s3p"]))
      (fun st => Except.ok (st ++ ["s4p"]))
      ([] : List String)
    = ⟨["s1p"], ["E1"], false⟩ := rfl

/-- Claim C3, amended.  A failure raised in a stage of `processPage` is
caught and logged at the level of the whole run, and it does prevent the
later stages of that run from executing (isolation is per page pass, not
per stage); the processing gate is still cleared by the `finally`.  The
result is independent of the later stage functions. -/
theorem processPage_failure_skips_later_stages {σ : Type}
    (s1 : Stage σ) (st stE : σ) (msg : String)
    (h : s1 st = Except.error (msg, stE)) :
    ∀ t2 t3 t4 : Stage σ,
      processPage true false s1 t2 t3 t4 st = ⟨stE, [msg], false⟩ := by
  intro t2 t3 t4
  have ht : tryStages s1 t2 t3 t4 st = Except.error (msg, stE) := by
    unfold tryStages
    rw [show (do
        let st1 ← s1 st
        let st2 ← t2 st1
        let st3 ← t3 st2
        t4 st3 : Except (String × σ) σ) =
      Except.bind (s1 st) (fun st1 => Except.bind (t2 st1)
        (fun st2 => Except.bind (t3 st2) t4)) from rfl, h]
    rfl
  simp [processPage, ht]

theorem processPage_failure_skips_later_stages_witness :
    ((fun st => Except.error ("boom", st ++ ["w1"]) :
        Stage (List String)) [] = Except.error ("boom", ["w1"])) ∧
    processPage true false
      (fun st => Except.error ("boom", st ++ ["w1"]))
      (fun st => Except.ok (st ++ ["w2"]))
      (fun st => Except.ok (st ++ ["w3"]))
      (fun st => Except.ok (st ++ ["w4"]))
      ([] : List String) = ⟨["w1"], ["boom"], false⟩ :=
  ⟨rfl, processPage_failure_skips_later_stages _ _ _ _ rfl _ _ _⟩

/-- Claim C4.  A mutation batch in which every mutation's target is
self-attributed (inside the saved-tabs container, inside an overlay, or
carrying `data-yt-detox`) and every added element node is
pipeline-marked yields zero qualifying mutations, and no re-run of
`processPage` is scheduled. -/
theorem self_attributed_batch_not_scheduled (muts : List MutationRec)
    (h : ∀ m ∈ muts,
      (closestById m.target "yt-detox-saved-tabs" ||
       closestByClass m.target "yt-detox-overlay" ||
       hasMarkAttr m.target.self) = true ∧
      ∀ n ∈ m.addedNodes, n.isElementNode = true →
        hasMarkAttr n.data = true) :
    muts.filter isRelevantMutation = [] ∧
    ∀ enabled, observerCallback enabled muts = false := by
  have hf : muts.filter isRelevantMutation = [] := by
    rw [List.filter_eq_nil_iff]
    intro m hm
    have hm1 := (h m hm).1
    simp [isRelevantMutation, hm1]
  refine ⟨hf, ?_⟩
  intro enabled
  cases enabled <;> simp [observerCallback, hf]

theorem self_attributed_batch_not_scheduled_witness :
    wMuts.filter isRelevantMutation = [] ∧
    observerCallback true wMuts = false := by
  have h := self_attributed_batch_not_scheduled wMuts (by decide)
  exact ⟨h.1, h.2 true⟩

/-- Claim C5.  `ScrollPreventer.enable` and `disable` are each
individually idempotent (a second consecutive call is a no-op, so the
captured style is never overwritten by the blocking value), and from an
inactive state `enable(); disable()` restores exactly the pre-`enable`
body overflow value, including a non-default one. -/
theorem scrollPreventer_reversible_idempotent (s : ScrollState) :
    ScrollPreventer.enable (ScrollPreventer.enable s) =
      ScrollPreventer.enable s ∧
    ScrollPreventer.disable (ScrollPreventer.disable s) =
      ScrollPreventer.disable s ∧
    (s.isActive = false →
      (ScrollPreventer.disable (ScrollPreventer.enable s)).bodyOverflow =
        s.bodyOverflow) := by
  refine ⟨?_, ?_, ?_⟩
  · by_cases h : s.isActive <;> simp [ScrollPreventer.enable, h]
  · by_cases h : s.isActive <;> simp [ScrollPreventer.disable, h]
  · intro h
    simp [ScrollPreventer.enable, ScrollPreventer.disable, h]

theorem scrollPreventer_reversible_idempotent_witness :
    ((⟨false, "", "scroll", false, false, false, false⟩ :
        ScrollState).isActive = false) ∧
    (ScrollPreventer.disable (ScrollPreventer.enable
        ⟨false, "", "scroll", false, false, false, false⟩)).bodyOverflow =
      "scroll" :=
  ⟨rfl, (scrollPreventer_reversible_idempotent _).2.2 rfl⟩

/-- Claim C6.  N ≥ 1 qualifying mutation batches each arriving before
the pending debounce timer elapses produce exactly one processing pass,
not N: the single timer slot is restarted by each qualifying batch, and
only the final timer fires. -/
theorem debounce_coalesces_to_one (delay : Nat)
    (batches : List (Nat × List MutationRec))
    (hne : batches ≠ [])
    (hq : ∀ b ∈ batches, observerCallback true b.2 = true)
    (hch : List.Chain' (fun a b => b < a + delay)
      (batches.map Prod.fst)) :
    debounceFires delay
      ((batches.filter (fun b => observerCallback true b.2)).map
        Prod.fst) = 1 := by
  have hfilter : batches.filter (fun b => observerCallback true b.2) =
      batches := List.filter_eq_self.mpr hq
  rw [hfilter]
  cases batches with
  | nil => exact absurd rfl hne
  | cons b bs =>
    rw [List.map_cons] at hch ⊢
    exact debounceRun_chain delay (bs.map Prod.fst) b.1 hch

theorem debounce_coalesces_to_one_witness :
    debounceFires 1000
      ((([(0, wBatch), (400, wBatch), (800, wBatch)]).filter
        (fun b => observerCallback true b.2)).map Prod.fst) = 1 :=
  debounce_coalesces_to_one 1000 _ (by decide) (by decide)
    (by
      simp only [List.map_cons, List.map_nil]
      exact List.chain'_cons.mpr ⟨by omega,
        List.chain'_cons.mpr ⟨by omega, List.chain'_singleton _⟩⟩)

/-- Claim C7.  `hideShort` on an element already in `hiddenShorts` or in
`sessionVisible` is a no-op: the whole state — DOM display values,
overlays, both tracking sets, log — is unchanged. -/
theorem hideShort_noop_when_processed (e : Nat) (s : BlockerState)
    (h : s.hiddenShorts.contains e = true ∨
         s.sessionVisible.contains e = true) :
    hideShort e s = s := by
  rcases h with h | h
  · exact hideShort_of_hidden h
  · exact hideShort_of_visible h

theorem hideShort_noop_when_processed_witness :
    (cexS1.hiddenShorts.contains 0 = true ∨
     cexS1.sessionVisible.contains 0 = true) ∧
    hideShort 0 cexS1 = cexS1 :=
  ⟨Or.inl (by decide),
   hideShort_noop_when_processed 0 cexS1 (Or.inl (by decide))⟩

/-- Claim C8, code bug.  On a document whose selector engine rejects the
`:has()` selector of the fixed list (content.js line 26), the scan is
NOT continued past the failing selector: the catch block of
`safeQuerySelectorAll` evaluates `document.querySelectorAll('')`, and
the empty selector string is itself invalid per the DOM standard, so the
fallback throws and the exception propagates out of
`findShortsElements`, aborting the whole scan (`none`).  On a document
where every selector of the list parses, the scan completes. -/
theorem invalid_selector_aborts_scan :
    findShortsElements noHasDoc = none ∧
    findShortsElements emptyDoc = some [] := by decide

/-- Claim C9, counterexample.  The claim asserts that when the expected
parent node is missing the element's suppression is aborted AND the
failure is logged.  The abort is real, but nothing is logged: the
`if (shortsElement.parentNode)` guard silently skips the body, and the
catch block (the only place that logs) never fires because nothing
throws.  Concretely, suppressing parentless element 7 leaves the whole
state unchanged, log still empty. -/
theorem missing_parent_not_logged :
    hideShort 7 exNoParent = exNoParent ∧
    (hideShort 7 exNoParent).log = [] := by decide

/-- Claim C9, amended.  When the expected parent node for overlay
insertion is missing, that element's suppression is aborted atomically —
not marked suppressed, no overlay inserted, display unchanged — but
silently, with no diagnostic logged, and processing continues with the
remaining matched elements. -/
theorem missing_parent_silent_skip (e : Nat) (s : BlockerState)
    (info : ElemInfo) (h1 : s.elems.lookup e = some info)
    (h2 : info.hasParent = false) :
    hideShort e s = s ∧
    ∀ l, processList (e :: l) s = processList l s := by
  have hmain : hideShort e s = s := by
    by_cases ha : e ∈ s.hiddenShorts
    · simp [hideShort, ha]
    · by_cases hb : e ∈ s.sessionVisible
      · simp [hideShort, ha, hb]
      · simp [hideShort, ha, hb, h1, h2]
  refine ⟨hmain, ?_⟩
  intro l
  simp [processList, hmain]

theorem missing_parent_silent_skip_witness :
    (exNoParent.elems.lookup 7 = some ⟨false, ""⟩) ∧
    ((⟨false, ""⟩ : ElemInfo).hasParent = false) ∧
    (hideShort 7 exNoParent = exNoParent ∧
     ∀ l, processList (7 :: l) exNoParent = processList l exNoParent) :=
  ⟨by decide, rfl, missing_parent_silent_skip 7 exNoParent ⟨false, ""⟩
    (by decide) rfl⟩

/-- Claim C10.  Whenever the current URL contains "/shorts/",
`processShorts` returns immediately: the state — both tracking sets,
overlays, element styles, log — is returned unchanged, and no element is
matched or suppressed. -/
theorem processShorts_noop_on_shorts_page (url : String) (d : DocQ)
    (s : BlockerState) (h : isShortsPage url = true) :
    processShorts url d s = some s := by
  simp [processShorts, h]

theorem processShorts_noop_on_shorts_page_witness :
    isShortsPage "https://www.youtube.com/shorts/abc123XYZ_u" = true ∧
    processShorts "https://www.youtube.com/shorts/abc123XYZ_u" emptyDoc
      (initState elemDoc) = some (initState elemDoc) :=
  ⟨by decide,
   processShorts_noop_on_shorts_page _ emptyDoc _ (by decide)⟩
